import Mathlib

/-!
Verification of the frame-rs wallet session client (src/client.rs).

The client (`FrameClient`) wraps an ethers JSON-RPC provider bound to
`http://<host>:1248` and exposes four operations: `new` (construct and
switch network), `get_chain_id`, `switch_network`, `send_gas_token`,
`get_accounts`.  Each operation is embedded as a pure Lean function of the
client state and of an oracle describing the outcome of the single network
round trip the operation performs; the function returns the trace of
requests it issues together with the `Except` result the Rust code
computes from that outcome.
-/

namespace FrameRs

/-- A 20-byte account identifier (ethers `Address`), opaque to the client. -/
structure Address where
  val : Nat
deriving DecidableEq, Repr

/-- Handle to the ethers `Provider<Http>` the client binds at construction;
the only observable datum is the URL it was built from. -/
structure Provider where
  url : String
deriving DecidableEq, Repr

/-- The error kinds the spec distinguishes.  In the Rust source all three
are `anyhow::Error` values; `transport` models errors propagated with `?`
from the provider / reqwest, `networkSwitch` the
`bail!("Failed to switch network: ...")` in `switch_network`, and
`transactionFailed` the `bail!("Tx failed to send")` in `send_gas_token`. -/
inductive FrameError where
  | transport (msg : String)
  | networkSwitch (msg : String)
  | transactionFailed (msg : String)
deriving DecidableEq, Repr

/-- The client state: `pub provider: Arc<Provider<Http>>` and
`rpc_url: String`.  No other field exists; in particular no chain id is
stored. -/
structure FrameClient where
  provider : Provider
  rpc_url : String
deriving DecidableEq, Repr

/-! ### Hex encoding of the chain id

`switch_network` encodes the chain id with `format!("{:#x}", chain_id)`,
which for a `U256` prints `0x` followed by the minimal lowercase
hexadecimal digits (the value zero prints as `0x0`). -/

/-- One lowercase hexadecimal digit character for `n < 16`
(`0`-`9` then `a`-`f`). -/
def hexDigitChar (n : Nat) : Char :=
  if n < 10 then Char.ofNat (48 + n) else Char.ofNat (87 + n)

/-- Minimal big-endian lowercase hex digits of `n` (most significant
first, as Rust's `LowerHex` emits them); empty for `n = 0`. -/
def hexDigits (n : Nat) : List Char :=
  ((Nat.digits 16 n).map hexDigitChar).reverse

/-- `format!("{:#x}", chain_id)` for a `U256` chain id. -/
def chainIdHex (n : Nat) : String :=
  "0x" ++ (if n = 0 then "0" else String.mk (hexDigits n))

/-! ### The JSON-RPC request issued by `switch_network` -/

/-- The single parameter object `{ "chainId": <hex> }`. -/
structure SwitchParam where
  chainId : String
deriving DecidableEq, Repr

/-- The JSON-RPC envelope posted by `switch_network`:
`{"jsonrpc": "2.0", "method": "wallet_switchEthereumChain",
"params": [...], "id": "1"}`. -/
structure JsonRpcRequest where
  jsonrpc : String
  method : String
  params : List SwitchParam
  id : String
deriving DecidableEq, Repr

/-- An HTTP request as sent over the wire: destination URL and JSON body. -/
structure SentRequest where
  url : String
  body : JsonRpcRequest
deriving DecidableEq, Repr

/-- `reqwest::StatusCode::is_success`: `200 <= code < 300`. -/
def statusIsSuccess (s : Nat) : Bool :=
  decide (200 ≤ s) && decide (s < 300)

/-- An HTTP response: its status code and the outcome of reading the body
text (`response.text().await` can itself fail, hence `Except`). -/
structure HttpResponse where
  status : Nat
  text : Except String String
deriving Repr

/-- Outcome of `client.post(..).json(..).send().await`: either the send
fails outright or a response arrives. -/
inductive HttpOutcome where
  | failure (msg : String)
  | response (resp : HttpResponse)
deriving Repr

/-- The request `switch_network chain_id` builds. -/
def switchRequest (chain_id : Nat) : JsonRpcRequest :=
  { jsonrpc := "2.0"
    method := "wallet_switchEthereumChain"
    params := [{ chainId := chainIdHex chain_id }]
    id := "1" }

/-- `FrameClient::switch_network`: posts one `wallet_switchEthereumChain`
request to `self.rpc_url` and judges the reply by HTTP status alone.
Returns the trace of HTTP requests issued and the result. -/
def switch_network (c : FrameClient) (chain_id : Nat) (http : HttpOutcome) :
    List SentRequest × Except FrameError Unit :=
  ([{ url := c.rpc_url, body := switchRequest chain_id }],
    match http with
    | .failure msg => .error (.transport msg)
    | .response resp =>
      if statusIsSuccess resp.status then
        .ok ()
      else
        match resp.text with
        | .ok body => .error (.networkSwitch ("Failed to switch network: " ++ body))
        | .error msg => .error (.transport msg))

/-! ### Construction -/

/-- Default host used when `host` is `None`. -/
def defaultHost : String := "127.0.0.1"

/-- `format!("http://{}:1248", host)`: the port is fixed at 1248. -/
def frameUrl (host : Option String) : String :=
  "http://" ++ host.getD defaultHost ++ ":1248"

/-- `FrameClient::new`: builds the base URL, binds the provider
(`Provider::<Http>::try_from`, whose outcome is the oracle `tryFrom`),
then immediately calls `switch_network` and fails if it fails. -/
def FrameClient.new (chain_id : Nat) (host : Option String)
    (tryFrom : Except String Unit) (http : HttpOutcome) :
    List SentRequest × Except FrameError FrameClient :=
  let rpc_url := frameUrl host
  match tryFrom with
  | .error msg => ([], .error (.transport msg))
  | .ok _ =>
    let c : FrameClient := { provider := { url := rpc_url }, rpc_url := rpc_url }
    let r := switch_network c chain_id http
    match r.2 with
    | .error e => (r.1, .error e)
    | .ok _ => (r.1, .ok c)

/-! ### Queries -/

/-- The live wallet behind the RPC endpoint: its active chain and the
accounts it manages.  External mutable state, never cached by the client. -/
structure Wallet where
  chain_id : Nat
  accounts : List Address
deriving DecidableEq, Repr

/-- `provider.get_chainid()` against a reachable wallet reports the
wallet's active chain at call time. -/
def providerGetChainId (w : Wallet) : Except String Nat :=
  .ok w.chain_id

/-- `provider.get_accounts()` against a reachable wallet reports the
wallet's account list in the wallet's own order. -/
def providerGetAccounts (w : Wallet) : Except String (List Address) :=
  .ok w.accounts

/-- `FrameClient::get_chain_id`: `self.provider.get_chainid().await?`,
returned verbatim; provider failures propagate as transport errors. -/
def get_chain_id (_c : FrameClient) (provider_result : Except String Nat) :
    Except FrameError Nat :=
  match provider_result with
  | .error msg => .error (.transport msg)
  | .ok v => .ok v

/-- `FrameClient::get_accounts`: `self.provider.get_accounts().await?`,
returned verbatim; provider failures propagate as transport errors. -/
def get_accounts (_c : FrameClient) (provider_result : Except String (List Address)) :
    Except FrameError (List Address) :=
  match provider_result with
  | .error msg => .error (.transport msg)
  | .ok l => .ok l

/-! ### Transaction submission -/

/-- ethers `TransactionRequest`: `TransactionRequest::new()` leaves every
field unset; the builder calls `.from(..).to(..).value(..)` fill exactly
three of them. -/
structure TransactionRequest where
  from_ : Option Address
  to_ : Option Address
  gas : Option Nat
  gas_price : Option Nat
  value : Option Nat
  data : Option (List Nat)
  nonce : Option Nat
  chain_id : Option Nat
deriving DecidableEq, Repr

/-- `TransactionRequest::new()`: all fields unset. -/
def TransactionRequest.new : TransactionRequest :=
  { from_ := none, to_ := none, gas := none, gas_price := none,
    value := none, data := none, nonce := none, chain_id := none }

/-- The receipt the provider may resolve a pending transaction to;
`transaction_hash` is the 32-byte hash embedded in it. -/
structure Receipt where
  transaction_hash : Nat
  block_number : Option Nat
  status : Option Nat
deriving DecidableEq, Repr

/-- Outcome of the provider round trip in `send_gas_token`:
`send_transaction` may fail, awaiting the pending transaction may fail,
or the pending transaction resolves to `Option<TransactionReceipt>`. -/
inductive SubmitOutcome where
  | sendFailure (msg : String)
  | awaitFailure (msg : String)
  | resolved (receipt : Option Receipt)
deriving DecidableEq, Repr

/-- `FrameClient::send_gas_token`: builds the transaction request from
`(from, to, amount)`, hands it to `provider.send_transaction` once, awaits
the receipt; no receipt is the `bail!("Tx failed to send")` branch.
Returns the trace of submitted requests and the result. -/
def send_gas_token (_c : FrameClient) (from_ to_ : Address) (amount : Nat)
    (outcome : SubmitOutcome) : List TransactionRequest × Except FrameError Nat :=
  let tx : TransactionRequest :=
    { TransactionRequest.new with from_ := some from_, to_ := some to_, value := some amount }
  ([tx],
    match outcome with
    | .sendFailure msg => .error (.transport msg)
    | .awaitFailure msg => .error (.transport msg)
    | .resolved none => .error (.transactionFailed "Tx failed to send")
    | .resolved (some r) => .ok r.transaction_hash)

/-! ### State evolution

Every public operation takes `&self`; none of the fields sits behind a
mutability cell, so the client state after an operation is the state
before it.  `opState` is the state transition each operation induces. -/

/-- One client operation together with its oracle. -/
inductive Op where
  | getChainId (provider_result : Except String Nat)
  | switchNetwork (chain_id : Nat) (http : HttpOutcome)
  | getAccounts (provider_result : Except String (List Address))
  | sendGasToken (from_ to_ : Address) (amount : Nat) (outcome : SubmitOutcome)
deriving Repr

/-- The client state after running one operation: every method takes
`&self`, so each branch returns the state unchanged. -/
def opState (c : FrameClient) (op : Op) : FrameClient :=
  match op with
  | .getChainId _ => c
  | .switchNetwork _ _ => c
  | .getAccounts _ => c
  | .sendGasToken _ _ _ _ => c

/-- The client state after a sequence of operations. -/
def runOps (c : FrameClient) (ops : List Op) : FrameClient :=
  List.foldl opState c ops

/-! ### Spec-side characterization of the hex encoding

`isMinimalLowerHex` is written from the spec's words ("0x-prefixed
lowercase minimal-digit hexadecimal encoding, leading zeros stripped,
zero itself encodes as 0x0"), to be compared with the source-side
`chainIdHex`. -/

/-- Numeric value of one lowercase hexadecimal digit character. -/
def hexVal (ch : Char) : Nat :=
  if ch.toNat ≤ 57 then ch.toNat - 48 else ch.toNat - 87

/-- Big-endian numeric value of a hexadecimal digit string. -/
def hexStrVal (l : List Char) : Nat :=
  l.foldl (fun acc d => 16 * acc + hexVal d) 0

/-- The sixteen lowercase hexadecimal digit characters. -/
def lowerHexChars : List Char :=
  "0123456789abcdef".toList

/-- Spec-side predicate: `s` is the `0x`-prefixed lowercase minimal-digit
hexadecimal encoding of `n` — some nonempty digit string after `0x`, all
digits lowercase hexadecimal, valuing to `n`, with no leading zero except
for the encoding `"0x0"` of zero itself. -/
def isMinimalLowerHex (n : Nat) (s : String) : Prop :=
  ∃ ds : List Char,
    s.data = '0' :: 'x' :: ds ∧ ds ≠ [] ∧
    (∀ d ∈ ds, d ∈ lowerHexChars) ∧ hexStrVal ds = n ∧
    (ds.head? = some '0' → ds = ['0'])

end FrameRs

namespace FrameRs

theorem hexVal_hexDigitChar : ∀ d : Nat, d < 16 → hexVal (hexDigitChar d) = d := by decide

theorem hexDigitChar_mem_lowerHexChars :
    ∀ d : Nat, d < 16 → hexDigitChar d ∈ lowerHexChars := by decide

theorem hexDigitChar_ne_zero_char :
    ∀ d : Nat, d < 16 → d ≠ 0 → hexDigitChar d ≠ '0' := by decide

theorem hexStrVal_append (l : List Char) (c : Char) :
    hexStrVal (l ++ [c]) = 16 * hexStrVal l + hexVal c := by
  simp [hexStrVal, List.foldl_append]

theorem hexStrVal_reverse_map (l : List Nat) (h : ∀ d ∈ l, d < 16) :
    hexStrVal ((l.map hexDigitChar).reverse) = Nat.ofDigits 16 l := by
  induction l with
  | nil => simp [hexStrVal, Nat.ofDigits]
  | cons d tl ih =>
    have hd : d < 16 := h d (by simp)
    have htl : ∀ e ∈ tl, e < 16 := fun e he => h e (by simp [he])
    simp only [List.map_cons, List.reverse_cons]
    rw [hexStrVal_append, ih htl, hexVal_hexDigitChar d hd, Nat.ofDigits_cons]
    ring

theorem chainIdHex_isMinimalLowerHex (n : Nat) : isMinimalLowerHex n (chainIdHex n) := by
  by_cases h0 : n = 0
  · subst h0
    exact ⟨['0'], by decide, by decide, by decide, by decide, fun _ => rfl⟩
  · have h16 : (1 : Nat) < 16 := by norm_num
    have hne : Nat.digits 16 n ≠ [] := Nat.digits_ne_nil_iff_ne_zero.mpr h0
    have hdig : ∀ d ∈ Nat.digits 16 n, d < 16 := fun d hd => Nat.digits_lt_base h16 hd
    refine ⟨hexDigits n, ?_, ?_, ?_, ?_, ?_⟩
    · simp [chainIdHex, h0, String.data_append]
    · simp only [hexDigits, ne_eq, List.reverse_eq_nil_iff, List.map_eq_nil_iff]
      exact hne
    · intro d hd
      simp only [hexDigits, List.mem_reverse, List.mem_map] at hd
      obtain ⟨e, he, rfl⟩ := hd
      exact hexDigitChar_mem_lowerHexChars e (hdig e he)
    · rw [hexDigits, hexStrVal_reverse_map _ hdig, Nat.ofDigits_digits]
    · intro hhead
      exfalso
      have hlast : (Nat.digits 16 n).getLast? =
          some ((Nat.digits 16 n).getLast hne) := List.getLast?_eq_getLast _ hne
      have hmem : (Nat.digits 16 n).getLast hne ∈ Nat.digits 16 n := List.getLast_mem hne
      have hh : (hexDigits n).head? =
          some (hexDigitChar ((Nat.digits 16 n).getLast hne)) := by
        rw [hexDigits, List.head?_reverse, List.getLast?_map, hlast, Option.map_some']
      rw [hh] at hhead
      have : hexDigitChar ((Nat.digits 16 n).getLast hne) = '0' :=
        Option.some.inj hhead
      exact hexDigitChar_ne_zero_char _ (hdig _ hmem)
        (Nat.getLast_digit_ne_zero 16 h0) this

/-! ## Claim theorems -/

/-- C1: for every chain identifier, `switch_network` judges success solely
by the HTTP-level response status: whenever the status indicates success
the call returns success, whatever the JSON-RPC body says — an HTTP 200
response carrying a JSON-RPC error body is reported as success. -/
theorem C1_switch_network_success_by_http_status_only
    (c : FrameClient) (chain_id : Nat) (resp : HttpResponse)
    (h : statusIsSuccess resp.status = true) :
    (switch_network c chain_id (.response resp)).2 = .ok () := by
  simp [switch_network, h]

/-- C1 witness: an HTTP 200 response whose body is a JSON-RPC error
envelope is still reported as success. -/
theorem C1_witness :
    statusIsSuccess 200 = true ∧
    (switch_network ⟨⟨"http://127.0.0.1:1248"⟩, "http://127.0.0.1:1248"⟩ 1
        (.response ⟨200,
          .ok "\x7b\"jsonrpc\":\"2.0\",\"error\":\x7b\"code\":-32601,\"message\":\"bad\"\x7d,\"id\":\"1\"\x7d"⟩)).2
      = .ok () :=
  ⟨rfl, C1_switch_network_success_by_http_status_only _ _ _ rfl⟩

/-- C2: `switch_network` issues a single JSON-RPC request with method
`wallet_switchEthereumChain` whose params are one object whose `chainId`
field is the `0x`-prefixed lowercase minimal-digit hexadecimal encoding
of the chain id; `0` encodes as `"0x0"`, `1` as `"0x1"`, `42161` as
`"0xa4b1"`. -/
theorem C2_switch_network_request_shape
    (c : FrameClient) (chain_id : Nat) (http : HttpOutcome) :
    (switch_network c chain_id http).1 =
      [{ url := c.rpc_url,
         body := { jsonrpc := "2.0", method := "wallet_switchEthereumChain",
                   params := [{ chainId := chainIdHex chain_id }], id := "1" } }] ∧
    isMinimalLowerHex chain_id (chainIdHex chain_id) ∧
    chainIdHex 0 = "0x0" ∧ chainIdHex 1 = "0x1" ∧ chainIdHex 42161 = "0xa4b1" := by
  refine ⟨rfl, chainIdHex_isMinimalLowerHex chain_id, by decide, ?_, ?_⟩
  · simp [chainIdHex, hexDigits, hexDigitChar,
      Nat.digits_def' (by norm_num : (1 : Nat) < 16)]
  · simp [chainIdHex, hexDigits, hexDigitChar,
      Nat.digits_def' (by norm_num : (1 : Nat) < 16)]

/-- C3: `send_gas_token` fails with the transaction-failed error carrying
exactly the message "Tx failed to send" when the provider resolves the
pending transaction to no receipt, and succeeds with exactly the hash
embedded in the receipt when one is present. -/
theorem C3_send_gas_token_receipt_semantics
    (c : FrameClient) (f t : Address) (amount : Nat) (r : Receipt) :
    (send_gas_token c f t amount (.resolved none)).2
        = .error (.transactionFailed "Tx failed to send") ∧
    (send_gas_token c f t amount (.resolved (some r))).2 = .ok r.transaction_hash :=
  ⟨rfl, rfl⟩

/-- C4: on a non-success HTTP status with a readable body, `switch_network`
fails with the network-switch error carrying the raw response body text,
and exactly one request is issued per call. -/
theorem C4_switch_network_http_failure
    (c : FrameClient) (chain_id : Nat) (resp : HttpResponse) (body : String)
    (h : statusIsSuccess resp.status = false) (hb : resp.text = .ok body) :
    (switch_network c chain_id (.response resp)).2
        = .error (.networkSwitch ("Failed to switch network: " ++ body)) ∧
    (switch_network c chain_id (.response resp)).1.length = 1 := by
  refine ⟨?_, rfl⟩
  simp [switch_network, h, hb]

/-- C4 witness: an HTTP 500 reply with body "chain not configured". -/
theorem C4_witness :
    statusIsSuccess 500 = false ∧
    (switch_network ⟨⟨"http://127.0.0.1:1248"⟩, "http://127.0.0.1:1248"⟩ 1
        (.response ⟨500, .ok "chain not configured"⟩)).2
      = .error (.networkSwitch "Failed to switch network: chain not configured") ∧
    (switch_network ⟨⟨"http://127.0.0.1:1248"⟩, "http://127.0.0.1:1248"⟩ 1
        (.response ⟨500, .ok "chain not configured"⟩)).1.length = 1 :=
  ⟨rfl, C4_switch_network_http_failure _ _ _ _ rfl rfl⟩

/-- C5: `new` builds the base URL `http://<host>:1248` with host defaulting
to `127.0.0.1` and the port fixed at 1248, immediately issues one
network-switch request for the given chain id, succeeds exactly when
provider construction and the switch request succeed, and whether it
succeeds is independent of the particular chain id. -/
theorem C5_new_semantics (chain_id chain_id2 : Nat) (host : Option String)
    (tryFrom : Except String Unit) (http : HttpOutcome) :
    frameUrl host = "http://" ++ host.getD "127.0.0.1" ++ ":1248" ∧
    frameUrl none = "http://127.0.0.1:1248" ∧
    (tryFrom = .ok () →
      (FrameClient.new chain_id host tryFrom http).1
        = [{ url := frameUrl host, body := switchRequest chain_id }]) ∧
    ((∃ cl, (FrameClient.new chain_id host tryFrom http).2 = .ok cl ∧
        cl.rpc_url = frameUrl host)
      ↔ tryFrom = .ok () ∧
        (switch_network ⟨⟨frameUrl host⟩, frameUrl host⟩ chain_id http).2 = .ok ()) ∧
    (FrameClient.new chain_id host tryFrom http).2
      = (FrameClient.new chain_id2 host tryFrom http).2 := by
  refine ⟨rfl, rfl, ?_, ?_, ?_⟩
  · rintro rfl
    cases http with
    | failure msg => rfl
    | response resp =>
      by_cases hs : statusIsSuccess resp.status
      · simp [FrameClient.new, switch_network, hs]
      · cases ht : resp.text <;> simp [FrameClient.new, switch_network, hs, ht]
  · constructor
    · rintro ⟨cl, hcl, hurl⟩
      cases tryFrom with
      | error msg => simp [FrameClient.new] at hcl
      | ok u =>
        cases u
        refine ⟨rfl, ?_⟩
        cases hsw : (switch_network ⟨⟨frameUrl host⟩, frameUrl host⟩ chain_id http).2 with
        | ok v => cases v; rfl
        | error e => simp [FrameClient.new, hsw] at hcl
    · rintro ⟨rfl, hsw⟩
      refine ⟨⟨⟨frameUrl host⟩, frameUrl host⟩, ?_, rfl⟩
      simp [FrameClient.new, hsw]
  · cases tryFrom with
    | error msg => rfl
    | ok u =>
      cases u
      cases http with
      | failure msg => rfl
      | response resp =>
        by_cases hs : statusIsSuccess resp.status
        · simp [FrameClient.new, switch_network, hs]
        · cases ht : resp.text <;> simp [FrameClient.new, switch_network, hs, ht]

/-- C5 witness: successful construction with the default host issues the
switch request for chain 1 against `http://127.0.0.1:1248`. -/
theorem C5_witness :
    (FrameClient.new 1 none (.ok ()) (.response ⟨200, .ok ""⟩)).1
      = [{ url := "http://127.0.0.1:1248", body := switchRequest 1 }] :=
  (C5_new_semantics 1 42161 none (.ok ()) (.response ⟨200, .ok ""⟩)).2.2.1 rfl

/-- C6: `send_gas_token` builds a transaction request containing exactly
the sender, recipient and value — gas, gas price and nonce unset — and
hands it to the provider in a single submission per call. -/
theorem C6_send_gas_token_tx_shape (c : FrameClient) (f t : Address) (amount : Nat)
    (outcome : SubmitOutcome) :
    (send_gas_token c f t amount outcome).1 =
      [{ from_ := some f, to_ := some t, gas := none, gas_price := none,
         value := some amount, data := none, nonce := none, chain_id := none }] ∧
    (send_gas_token c f t amount outcome).1.length = 1 :=
  ⟨rfl, rfl⟩

/-- C7: the session stores no chain identifier: `get_chain_id` re-queries
the live wallet and returns whatever chain id the wallet reports at call
time, also for a client freshly constructed for a different chain; the
client state consists of nothing but the provider handle and the URL. -/
theorem C7_get_chain_id_no_caching (c : FrameClient) (w : Wallet) :
    get_chain_id c (providerGetChainId w) = .ok w.chain_id ∧
    (∀ chain_id0 host tryFrom http c0,
      (FrameClient.new chain_id0 host tryFrom http).2 = .ok c0 →
      get_chain_id c0 (providerGetChainId w) = .ok w.chain_id) ∧
    (∀ c1 c2 : FrameClient, c1.provider = c2.provider → c1.rpc_url = c2.rpc_url →
      c1 = c2) := by
  refine ⟨rfl, fun _ _ _ _ _ _ => rfl, ?_⟩
  rintro ⟨p1, u1⟩ ⟨p2, u2⟩ hp hu
  simp only at hp hu
  rw [hp, hu]

/-- C7 witness: a client constructed for chain 1 reports 42161 when the
wallet has since moved to 42161. -/
theorem C7_witness :
    get_chain_id ⟨⟨"http://127.0.0.1:1248"⟩, "http://127.0.0.1:1248"⟩
        (providerGetChainId ⟨42161, []⟩) = .ok 42161 :=
  (C7_get_chain_id_no_caching ⟨⟨"http://127.0.0.1:1248"⟩, "http://127.0.0.1:1248"⟩
      ⟨42161, []⟩).2.1 1 none (.ok ()) (.response ⟨200, .ok ""⟩)
      ⟨⟨"http://127.0.0.1:1248"⟩, "http://127.0.0.1:1248"⟩ rfl

/-- C8: no operation mutates the stored base URL or the bound provider
handle: after any sequence of operations the session state equals its
state at construction. -/
theorem C8_session_state_immutable (c : FrameClient) (ops : List Op) :
    runOps c ops = c ∧ (runOps c ops).rpc_url = c.rpc_url ∧
    (runOps c ops).provider = c.provider := by
  have h : runOps c ops = c := by
    induction ops generalizing c with
    | nil => rfl
    | cons op tl ih =>
      show runOps (opState c op) tl = c
      rw [show opState c op = c from by cases op <;> rfl]
      exact ih c
  exact ⟨h, by rw [h], by rw [h]⟩

/-- C9: `get_accounts` returns the address sequence exactly as the
provider reports it, in the provider's order, and an empty sequence is a
valid non-error success. -/
theorem C9_get_accounts_verbatim (c : FrameClient) (w : Wallet) (l : List Address) :
    get_accounts c (.ok l) = .ok l ∧
    get_accounts c (providerGetAccounts w) = .ok w.accounts ∧
    get_accounts c (.ok ([] : List Address)) = .ok [] :=
  ⟨rfl, rfl, rfl⟩

/-- C10: when the HTTP status is non-success but reading the body text
fails, `switch_network` propagates the body-read transport error and in
particular does not produce a network-switch error. -/
theorem C10_switch_network_body_read_failure
    (c : FrameClient) (chain_id : Nat) (resp : HttpResponse) (msg : String)
    (h : statusIsSuccess resp.status = false) (hb : resp.text = .error msg) :
    (switch_network c chain_id (.response resp)).2 = .error (.transport msg) ∧
    ∀ s, (switch_network c chain_id (.response resp)).2
        ≠ .error (.networkSwitch s) := by
  have h1 : (switch_network c chain_id (.response resp)).2 = .error (.transport msg) := by
    simp [switch_network, h, hb]
  refine ⟨h1, fun s hs => ?_⟩
  rw [h1] at hs
  exact FrameError.noConfusion (Except.error.inj hs)

/-- C10 witness: HTTP 502 with an unreadable body propagates the read
error as a transport error. -/
theorem C10_witness :
    statusIsSuccess 502 = false ∧
    (switch_network ⟨⟨"http://127.0.0.1:1248"⟩, "http://127.0.0.1:1248"⟩ 7
        (.response ⟨502, .error "connection reset by peer"⟩)).2
      = .error (.transport "connection reset by peer") :=
  ⟨rfl, (C10_switch_network_body_read_failure
      ⟨⟨"http://127.0.0.1:1248"⟩, "http://127.0.0.1:1248"⟩ 7
      ⟨502, .error "connection reset by peer"⟩ "connection reset by peer" rfl rfl).1⟩

end FrameRs
